import Mathlib

/-!
Verification of the GorkyGuide bot pipeline (`bot.py`).

The Python source is shallowly embedded: Python strings become Lean
`String` (a wrapper around `List Char`), Python dicts coming from
`json.loads` become an inductive `Json` value, fallible Python code
(code that may raise) is embedded in `Except PyErr`, and each aiogram
message handler becomes a pure function from its inputs (current form
data, the incoming message, and the outcome of any remote completion
call, which is a parameter since the network is external) to a
`HandlerResult` holding the next conversation state, the updated form
data and the ordered list of outbound replies.
-/

namespace GorkyGuide

/-- Characters removed by Python's `str.strip()` (ASCII whitespace set). -/
def pyIsSpace (c : Char) : Bool :=
  c = ' ' || c = '\t' || c = '\n' || c = '\r' || c = '\x0b' || c = '\x0c'

/-- Python `str.strip()` on the underlying character list. -/
def stripChars (l : List Char) : List Char :=
  ((l.dropWhile pyIsSpace).reverse.dropWhile pyIsSpace).reverse

/-- Python `s.strip()`. -/
def pyStrip (s : String) : String := ⟨stripChars s.data⟩

/-- Python `s.startswith(pre)`. -/
def pyStartsWith (s pre : String) : Bool := pre.data.isPrefixOf s.data

/-- Python `s.endswith(suf)`. -/
def pyEndsWith (s suf : String) : Bool := suf.data.isSuffixOf s.data

/-- Python slice `s[n:]`. -/
def pySliceFrom (s : String) (n : Nat) : String := ⟨s.data.drop n⟩

/-- Python slice `s[:-n]` (for `n ≤ len(s)`, which is how the source uses it). -/
def pySliceUpToNeg (s : String) (n : Nat) : String := ⟨s.data.take (s.data.length - n)⟩

/-- Python `s.isdigit()`, restricted to the ASCII digits the dialogue uses:
nonempty and every character a decimal digit. -/
def pyIsDigit (s : String) : Bool := !s.data.isEmpty && s.data.all (·.isDigit)

/-- The code-fence normalization performed inline in
`process_location_and_generate` (bot.py lines 278-282): strip a leading
triple-backtick if present, then a trailing one, then surrounding
whitespace. -/
def normalize (s : String) : String :=
  let s1 := if pyStartsWith s "```" then pySliceFrom s 3 else s
  let s2 := if pyEndsWith s1 "```" then pySliceUpToNeg s1 3 else s1
  pyStrip s2

example : normalize " ```a" = "```a" := by decide
example : normalize (normalize " ```a") = "a" := by decide

/-- Values produced by Python's `json.loads` (numbers are modelled as
integers; the claims under verification involve no fractional values). -/
inductive Json where
  | null
  | bool (b : Bool)
  | num (n : Int)
  | str (s : String)
  | arr (elems : List Json)
  | obj (fields : List (String × Json))

/-- Exceptions the embedded Python fragments can raise. -/
inductive PyErr where
  | attributeError
  | typeError
  | keyError
  | indexError
deriving DecidableEq

/-- Python `sep.join(list_of_str)` on Lean strings. -/
def strJoin (sep : String) : List String → String
  | [] => ""
  | [s] => s
  | s :: rest => s ++ sep ++ strJoin sep rest

mutual

/-- Python `repr` on JSON-shaped values (quote escaping inside strings is
not modelled; the rendering claims never pass containers to `str`). -/
def pyRepr : Json → String
  | .null => "None"
  | .bool true => "True"
  | .bool false => "False"
  | .num n => toString n
  | .str s => "\x27" ++ s ++ "\x27"
  | .arr l => "[" ++ strJoin ", " (pyReprList l) ++ "]"
  | .obj l => "\x7b" ++ strJoin ", " (pyReprFields l) ++ "\x7d"

def pyReprList : List Json → List String
  | [] => []
  | j :: rest => pyRepr j :: pyReprList rest

def pyReprFields : List (String × Json) → List String
  | [] => []
  | (k, v) :: rest => ("\x27" ++ k ++ "\x27: " ++ pyRepr v) :: pyReprFields rest

end

/-- Python `str(x)` as used inside the renderer's f-strings. -/
def pyStr (j : Json) : String :=
  match j with
  | .str s => s
  | j => pyRepr j

/-- Python truthiness of a JSON-shaped value. -/
def pyTruthy : Json → Bool
  | .null => false
  | .bool b => b
  | .num n => n != 0
  | .str s => !s.data.isEmpty
  | .arr l => !l.isEmpty
  | .obj l => !l.isEmpty

/-- First-match association lookup, the model of Python dict indexing
(`json.loads` never produces duplicate keys). -/
def jlookup : List (String × Json) → String → Option Json
  | [], _ => none
  | (k, v) :: rest, key => if k = key then some v else jlookup rest key

/-- Python `o.get(key, default)`: defined on dicts, an `AttributeError`
on anything else. -/
def pyGet (o : Json) (key : String) (default : Json) : Except PyErr Json :=
  match o with
  | .obj fields => .ok ((jlookup fields key).getD default)
  | _ => .error .attributeError

/-- Python iteration (`for x in v`): lists yield elements, strings yield
one-character strings, dicts yield keys, everything else raises. -/
def pyIter : Json → Except PyErr (List Json)
  | .arr l => .ok l
  | .str s => .ok (s.data.map fun c => .str ⟨[c]⟩)
  | .obj l => .ok (l.map fun kv => .str kv.1)
  | _ => .error .typeError

/-- Coerce every element to a Python `str`, raising `TypeError` on the
first non-string, exactly as Python's `str.join` does. -/
def asStrings : List Json → Except PyErr (List String)
  | [] => .ok []
  | .str s :: rest => do
    let tail ← asStrings rest
    pure (s :: tail)
  | _ :: _ => .error .typeError

/-- Python `sep.join(xs)` where `xs` may contain non-strings. -/
def pyJoinStrs (sep : String) (l : List Json) : Except PyErr String := do
  let strs ← asStrings l
  pure (strJoin sep strs)

/-- One route-point block of `format_route_from_json` (bot.py lines 114-121):
the four `point_details` lines joined with a newline. -/
def formatPoint (i : Nat) (point : Json) : Except PyErr String := do
  let name ← pyGet point "name" (.str "Без названия")
  let reason ← pyGet point "reason" (.str "")
  let travel ← pyGet point "travel_info" (.str "Не указано")
  let visit ← pyGet point "visit_duration" (.str "Не указано")
  pure (strJoin "\n" [
    "*" ++ toString i ++ ". " ++ pyStr name ++ "*",
    "_" ++ pyStr reason ++ "_",
    "*Время в пути:* " ++ pyStr travel,
    "*Время посещения:* " ++ pyStr visit])

/-- The `enumerate(route_points, 1)` loop of `format_route_from_json`. -/
def formatPoints : Nat → List Json → Except PyErr (List String)
  | _, [] => .ok []
  | i, p :: ps => do
    let b ← formatPoint i p
    let bs ← formatPoints (i + 1) ps
    pure (b :: bs)

/-- The timeline block of `format_route_from_json` (bot.py lines 123-130). -/
def timelineBlock (timeline_items : Json) : Except PyErr (List String) :=
  if pyTruthy timeline_items then do
    let items ← pyIter timeline_items
    pure [strJoin "\n"
      ("_Примерный таймлайн:_" :: items.map fun it => "- _" ++ pyStr it ++ "_")]
  else pure []

/-- Body of the `try:` block of `format_route_from_json` (bot.py lines
107-141); a raised Python exception is an `Except.error`. -/
def formatRouteBody (route_data : Json) : Except PyErr String := do
  let title ← pyGet route_data "title" (.str "Ваш пешеходный маршрут")
  let start_location ← pyGet route_data "start_location" (.str "Не указано")
  let title_block := strJoin "\n" [
    "*" ++ pyStr title ++ "*",
    "*Начало маршрута:* " ++ pyStr start_location]
  let points_val ← pyGet route_data "route_points" (.arr [])
  let points ← pyIter points_val
  let route_points_blocks ← formatPoints 1 points
  let timeline_items ← pyGet route_data "timeline" (.arr [])
  let timeline_block ← timelineBlock timeline_items
  let summary ← pyGet route_data "summary" (.str "")
  let all_blocks : List Json :=
    .str title_block :: (route_points_blocks.map .str ++ timeline_block.map .str ++ [summary])
  pyJoinStrs "\n\n" (all_blocks.filter pyTruthy)

/-- `format_route_from_json` (bot.py lines 103-145): the `try` body with
the catch-all `except` replacing any fault by the fixed apology string. -/
def format_route_from_json (route_data : Json) : String :=
  match formatRouteBody route_data with
  | .ok s => s
  | .error _ => "Произошла ошибка при обработке маршрута."

example : format_route_from_json (.obj []) =
    "*Ваш пешеходный маршрут*\n*Начало маршрута:* Не указано" := by rfl

example : format_route_from_json (.obj [("route_points", .arr [.obj []])]) =
    "*Ваш пешеходный маршрут*\n*Начало маршрута:* Не указано\n\n" ++
    "*1. Без названия*\n__\n*Время в пути:* Не указано\n*Время посещения:* Не указано" := by
  rfl

example : format_route_from_json (.num 3) = "Произошла ошибка при обработке маршрута." := by rfl

/-- One point-of-interest record of the category index (`data.json`). -/
structure PlaceObj where
  title : String
  address : String
deriving DecidableEq

/-- The per-session form data accumulated by the aiogram FSM
(`state.update_data` / `state.get_data`): keys `interests`,
`selected_objects`, `time`, `location`; `none` marks an absent key. -/
structure Form where
  interests : Option String
  selected_objects : Option (List PlaceObj)
  time : Option String
  location : Option String
deriving DecidableEq

/-- The empty form a fresh or cleared session holds. -/
def emptyForm : Form := ⟨none, none, none, none⟩

/-- Conversation state: the three `RouteForm` states of bot.py plus
`Idle` for a cleared FSM context (`state.clear()` / no state set). -/
inductive ConvState where
  | Idle
  | AwaitingInterests
  | AwaitingTime
  | AwaitingLocation
deriving DecidableEq

/-- Outcome of one handler invocation: the next conversation state, the
updated form data, and the ordered outbound replies (`message.answer`). -/
structure HandlerResult where
  state : ConvState
  form : Form
  replies : List String
deriving DecidableEq

/-- The collected `user_data` dict as consumed by `construct_prompt`. -/
structure UserData where
  interests : String
  selected_objects : List PlaceObj
  time : String
  location : String
deriving DecidableEq

/-- `construct_prompt_for_interests` (bot.py lines 73-77). -/
def construct_prompt_for_interests (interests : String) : String :=
  "\n    Какая из перечисленных категорий (1:Памятники и монументы; 2:Парки и скверы; " ++
  "3:Архитектурные сооружения; 4:Музеи и галереи; 5:Театры; 6:Культурно-досуговые центры; " ++
  "7:Набережные; 8:Тактильные макеты; 9:Советские мозаики) наиболее подходит под интересы (" ++
  interests ++ ") пользователя?\n    " ++
  "ГЛАВНОЕ ПРАВИЛО: Отвечай ТОЛЬКО цифрой от 1 до 9, без пояснений.\n    "

/-- The `objects_text` list comprehension of `construct_prompt` (bot.py line 81). -/
def objectsText (selected_objects : List PlaceObj) : String :=
  strJoin "\n" (selected_objects.map fun obj => "- " ++ obj.title ++ " (адрес: " ++ obj.address ++ ")")

/-- `construct_prompt` (bot.py lines 79-101): the route-generation prompt
assembled from the collected form data. -/
def construct_prompt (user_data : UserData) : String :=
  let objects_text := objectsText user_data.selected_objects
  "\n    Ты — увлеченный гид и скрупулезный планировщик. Твоя задача — взять ГОТОВЫЙ список " ++
  "достопримечательностей и сплести из них живой и интересный пешеходный маршрут, который " ++
  "СТРОГО соответствует запросу туриста. Верни результат в формате JSON.\n\n    " ++
  "--- ГЛАВНОЕ ПРАВИЛО: СООТВЕТСТВИЕ ВРЕМЕНИ ---\n    " ++
  "Общая продолжительность маршрута должна максимально точно соответствовать " ++
  "\x27Доступному времени\x27 туриста: " ++ user_data.time ++ " часа.\n\n    " ++
  "ДАННЫЕ ОТ ТУРИСТА:\n    - Начальная точка: " ++ user_data.location ++ "\n\n    " ++
  "СПИСОК ДОСТОПРИМЕЧАТЕЛЬНОСТЕЙ ДЛЯ МАРШРУТА (используй ТОЛЬКО их):\n    " ++
  objects_text ++ "\n\n    " ++
  "--- ПРАВИЛА КАЧЕСТВА ---\n    " ++
  "1. Пиши увлекательно, добавляй \"фишку\" или малоизвестный факт для каждого места.\n    " ++
  "2. Таймлайн должен быть простым и читаемым, в формате \"0-15 мин: ...\".\n\n    " ++
  "ТРЕБОВАНИЯ К JSON:\n    " ++
  "Верни ОДИН JSON-объект с ключами: \"title\", \"start_location\", \"route_points\", " ++
  "\"timeline\", \"summary\". \"route_points\" — массив объектов с ключами \"name\", " ++
  "\"reason\", \"travel_info\", \"visit_duration\".\n    "

/-- The model of `random.sample(l, k)` for `k ≤ len(l)` (bot.py line 233):
repeatedly pick a position derived from the seed and remove it, i.e.
sampling without replacement; deterministic in the seed. -/
def pySample {α : Type} : Nat → Nat → List α → List α
  | _, 0, _ => []
  | _, _ + 1, [] => []
  | seed, k + 1, a :: as =>
    let i := seed % (a :: as).length
    (a :: as).getD i a :: pySample (seed / 2) k ((a :: as).eraseIdx i)

/-- The expression `category.strip() if category else ""` (bot.py line 220):
`None` and the empty string are both falsy. -/
def categoryKey : Option String → String
  | none => ""
  | some c => if c = "" then "" else pyStrip c

/-- Re-prompt sent when no category matches (bot.py line 228). -/
def noPlacesReply : String :=
  "К сожалению, не нашёл подходящих мест. Попробуйте сформулировать интересы иначе."

/-- `process_interests` (bot.py lines 212-238). `cultural_data` is the
external category index (`data.json`), `category` the outcome of the
auxiliary classification completion call (`None` on any failure), and
`seed` the randomness consumed by `random.sample`. The `isinstance(..., list)`
check of line 226 always holds in this typed embedding. -/
def process_interests (cultural_data : String → Option (List PlaceObj)) (seed : Nat)
    (form : Form) (text : String) (category : Option String) : HandlerResult :=
  let form := { form with interests := some text }
  let category_key := categoryKey category
  match cultural_data category_key with
  | none =>
    { state := .AwaitingInterests, form := form, replies := [noPlacesReply] }
  | some all_objects_in_category =>
    if all_objects_in_category.isEmpty then
      { state := .AwaitingInterests, form := form, replies := [noPlacesReply] }
    else
      let num_to_select := min all_objects_in_category.length 4
      let selected_objects := pySample seed num_to_select all_objects_in_category
      { state := .AwaitingTime,
        form := { form with selected_objects := some selected_objects },
        replies := ["Отлично, я подобрал для вас несколько мест по вашим интересам!\n\n" ++
          "Сколько у вас свободного времени⏳ на прогулку (в часах)?"] }

/-- `process_time` (bot.py lines 241-251). -/
def process_time (form : Form) (text : String) : HandlerResult :=
  if !pyIsDigit text then
    { state := .AwaitingTime, form := form,
      replies := ["Пожалуйста, введи количество часов цифрой (например, 3)."] }
  else
    { state := .AwaitingLocation, form := { form with time := some text },
      replies := ["Принято. Теперь отправь свою геолокацию📍 или напиши адрес, откуда начнем."] }

/-- A Telegram location payload; the two coordinates are kept in the
decimal form Python's f-string interpolation renders them to. -/
structure GeoPoint where
  latitude : String
  longitude : String
deriving DecidableEq

/-- `process_location_and_generate` (bot.py lines 253-299). `loads` is
Python's `json.loads` (stdlib, external to this repository): `none` is a
raised `json.JSONDecodeError`. `get_gpt` is the outcome of
`await get_gpt_route_async(prompt)` as a function of the prompt sent.
The aiogram `state.clear()` of line 262 is the reset to `Idle` with an
empty form carried by every branch of the result. -/
def process_location_and_generate (loads : String → Option Json)
    (get_gpt : String → Option String) (form : Form)
    (text : Option String) (location : Option GeoPoint) : HandlerResult :=
  let user_location :=
    match location with
    | some loc => "координаты " ++ loc.latitude ++ ", " ++ loc.longitude
    | none => text.getD ""
  let form := { form with location := some user_location }
  let user_data : UserData :=
    { interests := form.interests.getD ""
      selected_objects := form.selected_objects.getD []
      time := form.time.getD ""
      location := form.location.getD "" }
  let waiting := "Супер! Все данные получил. 🧠 Составляю твой уникальный маршрут... " ++
    "Это может занять около минуты."
  match get_gpt (construct_prompt user_data) with
  | none =>
    { state := .Idle, form := emptyForm,
      replies := [waiting, "Не удалось сгенерировать маршрут. Попробуйте позже."] }
  | some json_string =>
    if json_string = "" then
      { state := .Idle, form := emptyForm,
        replies := [waiting, "Не удалось сгенерировать маршрут. Попробуйте позже."] }
    else
      match loads (normalize json_string) with
      | none =>
        { state := .Idle, form := emptyForm,
          replies := [waiting, "Получен некорректный ответ от AI, не могу построить маршрут. " ++
            "Пожалуйста, попробуйте изменить запрос."] }
      | some route_data =>
        { state := .Idle, form := emptyForm,
          replies := [waiting, format_route_from_json route_data] }

/-- What the transport layer reports back for one completion request:
an HTTP response whose status is known and whose body may fail to decode
as JSON, a timeout, or any other transport exception. -/
inductive HttpEvent where
  | response (status : Nat) (body : Except PyErr Json)
  | timeoutError
  | exn

/-- Python subscript `j[key]` with a string key. -/
def pyIndexStr (j : Json) (key : String) : Except PyErr Json :=
  match j with
  | .obj fields =>
    match jlookup fields key with
    | some v => .ok v
    | none => .error .keyError
  | _ => .error .typeError

/-- Python subscript `j[i]` with an integer index. -/
def pyIndexNat (j : Json) (i : Nat) : Except PyErr Json :=
  match j with
  | .arr l =>
    match l.get? i with
    | some v => .ok v
    | none => .error .indexError
  | .str s =>
    match s.data.get? i with
    | some c => .ok (.str ⟨[c]⟩)
    | none => .error .indexError
  | .obj _ => .error .keyError
  | _ => .error .typeError

/-- The chained subscripts `data['result']['alternatives'][0]['message']['text']`
of bot.py line 172. -/
def extractResultText (data : Json) : Except PyErr Json := do
  let r ← pyIndexStr data "result"
  let alts ← pyIndexStr r "alternatives"
  let a0 ← pyIndexNat alts 0
  let msg ← pyIndexStr a0 "message"
  pyIndexStr msg "text"

/-- `get_gpt_route_async` (bot.py lines 146-184) as a function of the
transport outcome: only a 200 status with the expected body path yields
a result; every non-200 status, timeout, decode fault or indexing fault
ends in the `return None` branches of the source. -/
def get_gpt_route_async (ev : HttpEvent) : Option Json :=
  match ev with
  | .response status body =>
    if status = 200 then
      match (do
        let data ← body
        extractResultText data : Except PyErr Json) with
      | .ok t => some t
      | .error _ => none
    else none
  | .timeoutError => none
  | .exn => none

example :
    get_gpt_route_async (.response 200 (.ok (.obj [("result", .obj [("alternatives",
      .arr [.obj [("message", .obj [("text", .str "hi")])]])])]))) = some (.str "hi") := by rfl

example : get_gpt_route_async (.response 500 (.ok (.obj []))) = none := by rfl

/-! ### String infrastructure -/

theorem strAppend_data (a b : String) : (a ++ b).data = a.data ++ b.data :=
  String.data_append a b

theorem strAppend_assoc (a b c : String) : a ++ b ++ c = a ++ (b ++ c) := by
  apply String.ext
  simp [strAppend_data]

theorem strAppend_nil (a : String) : a ++ "" = a := by
  apply String.ext
  simp [strAppend_data]

theorem strNil_append (a : String) : "" ++ a = a := by
  apply String.ext
  simp [strAppend_data]

/-- Substring containment: `sub` occurs somewhere inside `msg`. -/
def containsStr (msg sub : String) : Prop := ∃ pre post, msg = pre ++ sub ++ post

theorem containsStr_iff_infix_data (msg sub : String) :
    containsStr msg sub ↔ sub.data <:+: msg.data := by
  constructor
  · rintro ⟨pre, post, rfl⟩
    exact ⟨pre.data, post.data, by simp [strAppend_data]⟩
  · rintro ⟨pre, post, h⟩
    refine ⟨⟨pre⟩, ⟨post⟩, String.ext ?_⟩
    simp [strAppend_data, ← h]

instance (msg sub : String) : Decidable (containsStr msg sub) :=
  decidable_of_iff _ (containsStr_iff_infix_data msg sub).symm

theorem containsStr_refl (s : String) : containsStr s s :=
  ⟨"", "", by rw [strNil_append, strAppend_nil]⟩

theorem containsStr_of_left {a sub : String} (b : String) (h : containsStr a sub) :
    containsStr (a ++ b) sub := by
  obtain ⟨pre, post, rfl⟩ := h
  exact ⟨pre, post ++ b, by rw [strAppend_assoc, strAppend_assoc]⟩

theorem containsStr_of_right {b sub : String} (a : String) (h : containsStr b sub) :
    containsStr (a ++ b) sub := by
  obtain ⟨pre, post, rfl⟩ := h
  exact ⟨a ++ pre, post, by simp [strAppend_assoc]⟩

theorem containsStr_trans {a b c : String} (h1 : containsStr a b) (h2 : containsStr b c) :
    containsStr a c := by
  obtain ⟨p1, q1, rfl⟩ := h1
  obtain ⟨p2, q2, rfl⟩ := h2
  exact ⟨p1 ++ p2, q2 ++ q1, by simp [strAppend_assoc]⟩

theorem containsStr_mem {msg sub : String} (h : containsStr msg sub) {c : Char}
    (hc : c ∈ sub.data) : c ∈ msg.data := by
  obtain ⟨pre, post, rfl⟩ := h
  simp only [strAppend_data, List.mem_append]
  exact Or.inl (Or.inr hc)

/-- The given strings all occur in the message, in the given order:
each one is found strictly inside the remainder after its predecessor. -/
def occursInOrder : List String → String → Prop
  | [], _ => True
  | n :: ns, msg => ∃ pre post, msg = pre ++ n ++ post ∧ occursInOrder ns post

theorem occursInOrder_prepend {ns : List String} {m : String} (a : String)
    (h : occursInOrder ns m) : occursInOrder ns (a ++ m) := by
  cases ns with
  | nil => trivial
  | cons n ns =>
    obtain ⟨pre, post, rfl, htail⟩ := h
    exact ⟨a ++ pre, post, by simp [strAppend_assoc], htail⟩

/-- A list of needles embeds, in order, into a list of blocks: each needle
is contained in its own block and the blocks keep their relative order. -/
inductive InfixEmbed : List String → List String → Prop where
  | nil (bs : List String) : InfixEmbed [] bs
  | skip (b : String) {ns bs : List String} (h : InfixEmbed ns bs) : InfixEmbed ns (b :: bs)
  | keep {b n : String} {ns bs : List String} (hn : containsStr b n) (h : InfixEmbed ns bs) :
      InfixEmbed (n :: ns) (b :: bs)

theorem InfixEmbed.append {ns1 ns2 bs1 bs2 : List String}
    (h1 : InfixEmbed ns1 bs1) (h2 : InfixEmbed ns2 bs2) :
    InfixEmbed (ns1 ++ ns2) (bs1 ++ bs2) := by
  induction h1 with
  | nil bs =>
    induction bs with
    | nil => simpa using h2
    | cons b bs ih => exact .skip b ih
  | skip b _ ih => exact .skip b ih
  | keep hn _ ih => exact .keep hn ih

theorem strJoin_cons (sep b : String) (bs : List String) (h : bs ≠ []) :
    strJoin sep (b :: bs) = b ++ sep ++ strJoin sep bs := by
  cases bs with
  | nil => exact absurd rfl h
  | cons b' bs' => rfl

theorem occursInOrder_nil_str {ns : List String} (h : occursInOrder ns "") (m : String) :
    occursInOrder ns m := by
  have := occursInOrder_prepend m h
  rwa [strAppend_nil] at this

theorem occursInOrder_strJoin {sep : String} {ns bs : List String} (h : InfixEmbed ns bs) :
    occursInOrder ns (strJoin sep bs) := by
  induction h with
  | nil bs => cases bs <;> trivial
  | skip b h ih =>
    rename_i ns bs
    cases bs with
    | nil =>
      cases h
      trivial
    | cons b' bs' =>
      rw [strJoin_cons sep b _ (by simp), strAppend_assoc]
      exact occursInOrder_prepend _ (occursInOrder_prepend _ ih)
  | keep hn h ih =>
    rename_i b n ns bs
    obtain ⟨pre, post, hb⟩ := hn
    cases bs with
    | nil =>
      refine ⟨pre, post, hb, ?_⟩
      cases h
      trivial
    | cons b' bs' =>
      rw [strJoin_cons sep b _ (by simp), hb]
      refine ⟨pre, post ++ sep ++ strJoin sep (b' :: bs'), by simp [strAppend_assoc], ?_⟩
      rw [strAppend_assoc]
      exact occursInOrder_prepend _ (occursInOrder_prepend _ ih)

/-! ### Whitespace stripping -/

theorem dropWhile_idem (p : Char → Bool) (l : List Char) :
    (l.dropWhile p).dropWhile p = l.dropWhile p := by
  induction l with
  | nil => rfl
  | cons a t ih =>
    by_cases h : p a
    · simp [List.dropWhile_cons, h, ih]
    · simp [List.dropWhile_cons, h]

theorem dropWhile_prefix_self {p : Char → Bool} {B A : List Char}
    (hBA : B <+: A) (hA : A.dropWhile p = A) : B.dropWhile p = B := by
  cases B with
  | nil => rfl
  | cons b t =>
    obtain ⟨rest, hrest⟩ := hBA
    subst hrest
    rw [List.cons_append] at hA
    have hpb : p b = false := by
      cases hpb : p b with
      | false => rfl
      | true =>
        exfalso
        rw [List.dropWhile_cons, if_pos hpb] at hA
        have hlen := congrArg List.length hA
        have hsuf : (t ++ rest).dropWhile p <:+ (t ++ rest) := List.dropWhile_suffix p
        have hle := hsuf.sublist.length_le
        simp only [List.length_cons] at hlen
        omega
    simp [List.dropWhile_cons, hpb]

theorem stripChars_idem (l : List Char) : stripChars (stripChars l) = stripChars l := by
  unfold stripChars
  have hA : (l.dropWhile pyIsSpace).dropWhile pyIsSpace = l.dropWhile pyIsSpace :=
    dropWhile_idem _ _
  set A := l.dropWhile pyIsSpace with hAdef
  set C := A.reverse.dropWhile pyIsSpace with hCdef
  have hBA : C.reverse <+: A := by
    have hsuf : C <:+ A.reverse := List.dropWhile_suffix _
    have hpre := List.reverse_prefix.mpr hsuf
    rwa [List.reverse_reverse] at hpre
  have hB : C.reverse.dropWhile pyIsSpace = C.reverse := dropWhile_prefix_self hBA hA
  rw [hB, List.reverse_reverse]
  have hC : C.dropWhile pyIsSpace = C := by rw [hCdef]; exact dropWhile_idem _ _
  rw [hC]

theorem pyStrip_idem (s : String) : pyStrip (pyStrip s) = pyStrip s :=
  String.ext (stripChars_idem s.data)

theorem normalize_no_fence (t : String) (h1 : pyStartsWith t "```" = false)
    (h2 : pyEndsWith t "```" = false) : normalize t = pyStrip t := by
  simp [normalize, h1, h2]

theorem normalize_eq_strip (s : String) : ∃ x, normalize s = pyStrip x := ⟨_, rfl⟩

/-! ### Sampling -/

theorem pySample_length {α : Type} (seed k : Nat) (l : List α) :
    (pySample seed k l).length = min k l.length := by
  induction k generalizing seed l with
  | zero => simp [pySample]
  | succ k ih =>
    cases l with
    | nil => simp [pySample]
    | cons a as =>
      have hi : seed % (a :: as).length < (a :: as).length := Nat.mod_lt _ (by simp)
      have herase : ((a :: as).eraseIdx (seed % (a :: as).length)).length = (a :: as).length - 1 := by
        rw [List.length_eraseIdx, if_pos hi]
      show ((a :: as).getD (seed % (a :: as).length) a ::
        pySample (seed / 2) k ((a :: as).eraseIdx (seed % (a :: as).length))).length =
        min (k + 1) (a :: as).length
      rw [List.length_cons, ih, herase]
      simp only [List.length_cons]
      omega

theorem pySample_subperm {α : Type} [DecidableEq α] (seed k : Nat) (l : List α) :
    List.Subperm (pySample seed k l) l := by
  induction k generalizing seed l with
  | zero => simp [pySample]
  | succ k ih =>
    cases l with
    | nil => simp [pySample]
    | cons a as =>
      have hi : seed % (a :: as).length < (a :: as).length := Nat.mod_lt _ (by simp)
      have hgetD : (a :: as).getD (seed % (a :: as).length) a =
          (a :: as)[seed % (a :: as).length] := List.getD_eq_getElem _ _ hi
      have hperm : List.Perm (a :: as)
          ((a :: as)[seed % (a :: as).length] :: (a :: as).eraseIdx (seed % (a :: as).length)) :=
        (List.perm_cons_erase (List.getElem_mem hi)).trans
          (List.Perm.cons _ (List.erase_getElem hi))
      show List.Subperm ((a :: as).getD (seed % (a :: as).length) a ::
        pySample (seed / 2) k ((a :: as).eraseIdx (seed % (a :: as).length))) (a :: as)
      rw [hgetD]
      exact List.Subperm.trans ((List.subperm_cons _).mpr (ih _ _)) hperm.symm.subperm

theorem subpermNodup {α : Type} {s l : List α} (h : List.Subperm s l) (hl : l.Nodup) :
    s.Nodup := by
  obtain ⟨t, hp, hs⟩ := h
  exact (List.Perm.nodup_iff hp).mp (hs.nodup hl)

/-! ### The RouteSchema contract and what the renderer does to it -/

/-- One entry of `route_points` in the Route Schema; every field is
optional for rendering purposes. -/
structure RoutePointSchema where
  name : Option String
  reason : Option String
  travel_info : Option String
  visit_duration : Option String
deriving DecidableEq

/-- The structured JSON contract the model is asked to return. -/
structure RouteSchema where
  title : Option String
  start_location : Option String
  route_points : List RoutePointSchema
  timeline : List String
  summary : Option String
deriving DecidableEq

/-- A JSON object field that is present exactly when the value is. -/
def optField (k : String) : Option String → List (String × Json)
  | none => []
  | some s => [(k, .str s)]

/-- The JSON object denoting a route point (absent fields omitted). -/
def RoutePointSchema.toJson (p : RoutePointSchema) : Json :=
  .obj (optField "name" p.name ++ optField "reason" p.reason ++
    optField "travel_info" p.travel_info ++ optField "visit_duration" p.visit_duration)

/-- The JSON object denoting a route (absent fields omitted). -/
def RouteSchema.toJson (r : RouteSchema) : Json :=
  .obj (optField "title" r.title ++ optField "start_location" r.start_location ++
    [("route_points", .arr (r.route_points.map RoutePointSchema.toJson))] ++
    [("timeline", .arr (r.timeline.map .str))] ++
    optField "summary" r.summary)

/-- Well-formedness in the sense of C1: a non-empty title, every route
point named non-emptily, and a non-empty summary. -/
def RouteSchema.wellFormed (r : RouteSchema) : Bool :=
  (r.title.getD "" != "") && r.route_points.all (fun p => p.name.getD "" != "") &&
  (r.summary.getD "" != "")

/-- The block the renderer produces for one route point of the schema. -/
def pointBlock (i : Nat) (p : RoutePointSchema) : String :=
  strJoin "\n" [
    "*" ++ toString i ++ ". " ++ p.name.getD "Без названия" ++ "*",
    "_" ++ p.reason.getD "" ++ "_",
    "*Время в пути:* " ++ p.travel_info.getD "Не указано",
    "*Время посещения:* " ++ p.visit_duration.getD "Не указано"]

/-- The blocks the renderer produces for a list of route points,
numbered from `i`. -/
def pointBlocks : Nat → List RoutePointSchema → List String
  | _, [] => []
  | i, p :: ps => pointBlock i p :: pointBlocks (i + 1) ps

/-- The title block the renderer produces for a schema value. -/
def titleBlockOf (r : RouteSchema) : String :=
  strJoin "\n" [
    "*" ++ r.title.getD "Ваш пешеходный маршрут" ++ "*",
    "*Начало маршрута:* " ++ r.start_location.getD "Не указано"]

/-- The timeline block list the renderer produces for a schema value. -/
def timelineBlocksOf (r : RouteSchema) : List String :=
  if r.timeline.isEmpty then []
  else [strJoin "\n" ("_Примерный таймлайн:_" :: r.timeline.map fun it => "- _" ++ it ++ "_")]

/-- The full message the renderer produces for a schema value. -/
def renderedOf (r : RouteSchema) : String :=
  strJoin "\n\n"
    ((titleBlockOf r ::
        (pointBlocks 1 r.route_points ++ timelineBlocksOf r ++ [r.summary.getD ""])).filter
      fun s => !s.data.isEmpty)

theorem exceptBind_ok {α β : Type} (a : α) (f : α → Except PyErr β) :
    (Except.ok a : Except PyErr α) >>= f = f a := rfl

theorem exceptPure {α : Type} (a : α) : (pure a : Except PyErr α) = .ok a := rfl

theorem pyStr_str (s : String) : pyStr (.str s) = s := rfl

theorem toJson_get_title (r : RouteSchema) :
    pyGet r.toJson "title" (.str "Ваш пешеходный маршрут") =
      .ok (.str (r.title.getD "Ваш пешеходный маршрут")) := by
  obtain ⟨t, sl, ps, tl, sm⟩ := r
  cases t <;> cases sl <;> cases sm <;> rfl

theorem toJson_get_start (r : RouteSchema) :
    pyGet r.toJson "start_location" (.str "Не указано") =
      .ok (.str (r.start_location.getD "Не указано")) := by
  obtain ⟨t, sl, ps, tl, sm⟩ := r
  cases t <;> cases sl <;> cases sm <;> rfl

theorem toJson_get_points (r : RouteSchema) :
    pyGet r.toJson "route_points" (.arr []) =
      .ok (.arr (r.route_points.map RoutePointSchema.toJson)) := by
  obtain ⟨t, sl, ps, tl, sm⟩ := r
  cases t <;> cases sl <;> cases sm <;> rfl

theorem toJson_get_timeline (r : RouteSchema) :
    pyGet r.toJson "timeline" (.arr []) = .ok (.arr (r.timeline.map .str)) := by
  obtain ⟨t, sl, ps, tl, sm⟩ := r
  cases t <;> cases sl <;> cases sm <;> rfl

theorem toJson_get_summary (r : RouteSchema) :
    pyGet r.toJson "summary" (.str "") = .ok (.str (r.summary.getD "")) := by
  obtain ⟨t, sl, ps, tl, sm⟩ := r
  cases t <;> cases sl <;> cases sm <;> rfl

theorem formatPoint_toJson (i : Nat) (p : RoutePointSchema) :
    formatPoint i p.toJson = .ok (pointBlock i p) := by
  obtain ⟨nm, rs, tr, vd⟩ := p
  cases nm <;> cases rs <;> cases tr <;> cases vd <;> rfl

theorem formatPoints_toJson (i : Nat) (ps : List RoutePointSchema) :
    formatPoints i (ps.map RoutePointSchema.toJson) = .ok (pointBlocks i ps) := by
  induction ps generalizing i with
  | nil => rfl
  | cons p ps ih =>
    simp [formatPoints, formatPoint_toJson, pointBlocks, ih i.succ, exceptBind_ok]

theorem map_pyStr_bullet (l : List String) :
    (l.map Json.str).map (fun it => "- _" ++ pyStr it ++ "_") =
      l.map fun it => "- _" ++ it ++ "_" := by
  induction l with
  | nil => rfl
  | cons y ys ih =>
    rw [List.map_cons, List.map_cons, List.map_cons, ih]
    rfl

theorem timelineBlock_toJson (r : RouteSchema) :
    timelineBlock (.arr (r.timeline.map .str)) = .ok (timelineBlocksOf r) := by
  cases htl : r.timeline with
  | nil => simp [timelineBlock, timelineBlocksOf, htl, pyTruthy, exceptPure]
  | cons x xs =>
    have hmap := map_pyStr_bullet (x :: xs)
    simp only [List.map_cons] at hmap
    simp only [timelineBlock, timelineBlocksOf, htl, pyTruthy, pyIter, exceptBind_ok,
      exceptPure, List.map_cons, List.isEmpty_cons, Bool.not_false, Bool.false_eq_true,
      if_true, if_false]
    rw [hmap]

theorem asStrings_map_str (l : List String) : asStrings (l.map .str) = .ok l := by
  induction l with
  | nil => rfl
  | cons s rest ih => simp [asStrings, ih]

theorem filter_truthy_map_str (l : List String) :
    (l.map Json.str).filter pyTruthy = (l.filter fun s => !s.data.isEmpty).map .str := by
  induction l with
  | nil => rfl
  | cons s rest ih => by_cases h : s.data.isEmpty <;> simp [pyTruthy, h, ih]

theorem pyJoin_filter_strs (sep A S : String) (B C : List String) :
    pyJoinStrs sep ((Json.str A :: (B.map .str ++ C.map .str ++ [Json.str S])).filter pyTruthy) =
      .ok (strJoin sep ((A :: (B ++ C ++ [S])).filter fun s => !s.data.isEmpty)) := by
  have h : (Json.str A :: (B.map .str ++ C.map .str ++ [Json.str S])) =
      (A :: (B ++ C ++ [S])).map .str := by simp
  rw [h, filter_truthy_map_str]
  simp [pyJoinStrs, asStrings_map_str]

theorem formatRouteBody_toJson (r : RouteSchema) :
    formatRouteBody r.toJson = .ok (renderedOf r) := by
  have hbody : formatRouteBody r.toJson =
      pyJoinStrs "\n\n" ((Json.str (titleBlockOf r) ::
        ((pointBlocks 1 r.route_points).map .str ++ (timelineBlocksOf r).map .str ++
          [Json.str (r.summary.getD "")])).filter pyTruthy) := by
    rw [formatRouteBody]
    rw [toJson_get_title, toJson_get_start, toJson_get_points, toJson_get_timeline,
      toJson_get_summary]
    simp only [exceptBind_ok]
    rw [show pyIter (.arr (r.route_points.map RoutePointSchema.toJson)) =
      .ok (r.route_points.map RoutePointSchema.toJson) from rfl]
    simp only [exceptBind_ok]
    rw [formatPoints_toJson, timelineBlock_toJson]
    simp only [exceptBind_ok]
    rfl
  rw [hbody, renderedOf, pyJoin_filter_strs]

theorem format_route_from_json_toJson (r : RouteSchema) :
    format_route_from_json r.toJson = renderedOf r := by
  rw [format_route_from_json, formatRouteBody_toJson]

theorem str_data_isEmpty_false {s : String} (h : s ≠ "") : s.data.isEmpty = false := by
  cases hs : s.data with
  | nil => exact absurd (String.ext (by rw [hs])) h
  | cons c t => simp [hs]

theorem isEmpty_false_append (a b : String) (h : a.data.isEmpty = false) :
    (a ++ b).data.isEmpty = false := by
  rw [strAppend_data]
  cases ha : a.data with
  | nil => simp [ha] at h
  | cons c t => simp [ha]

theorem titleBlockOf_isEmpty_false (r : RouteSchema) :
    (titleBlockOf r).data.isEmpty = false := by
  have h : titleBlockOf r =
      ("*" ++ r.title.getD "Ваш пешеходный маршрут" ++ "*") ++ "\n" ++
        ("*Начало маршрута:* " ++ r.start_location.getD "Не указано") := rfl
  rw [h]
  repeat
    first
    | rfl
    | apply isEmpty_false_append

theorem pointBlock_isEmpty_false (i : Nat) (p : RoutePointSchema) :
    (pointBlock i p).data.isEmpty = false := by
  have h : pointBlock i p =
      ("*" ++ toString i ++ ". " ++ p.name.getD "Без названия" ++ "*") ++ "\n" ++
        (("_" ++ p.reason.getD "" ++ "_") ++ "\n" ++
          (("*Время в пути:* " ++ p.travel_info.getD "Не указано") ++ "\n" ++
            ("*Время посещения:* " ++ p.visit_duration.getD "Не указано"))) := rfl
  rw [h]
  repeat
    first
    | rfl
    | apply isEmpty_false_append

theorem pointBlocks_filter (i : Nat) (ps : List RoutePointSchema) :
    (pointBlocks i ps).filter (fun s => !s.data.isEmpty) = pointBlocks i ps := by
  induction ps generalizing i with
  | nil => rfl
  | cons p ps ih =>
    rw [pointBlocks, List.filter_cons]
    simp [pointBlock_isEmpty_false, ih]

theorem pointBlock_contains_name (i : Nat) (p : RoutePointSchema) :
    containsStr (pointBlock i p) (p.name.getD "Без названия") := by
  refine ⟨"*" ++ toString i ++ ". ",
    "*" ++ "\n" ++ ("_" ++ p.reason.getD "" ++ "_") ++ "\n" ++
      ("*Время в пути:* " ++ p.travel_info.getD "Не указано") ++ "\n" ++
      ("*Время посещения:* " ++ p.visit_duration.getD "Не указано"), ?_⟩
  have h : pointBlock i p =
      ("*" ++ toString i ++ ". " ++ p.name.getD "Без названия" ++ "*") ++ "\n" ++
        (("_" ++ p.reason.getD "" ++ "_") ++ "\n" ++
          (("*Время в пути:* " ++ p.travel_info.getD "Не указано") ++ "\n" ++
            ("*Время посещения:* " ++ p.visit_duration.getD "Не указано"))) := rfl
  rw [h]
  simp [strAppend_assoc]

theorem infixEmbed_names (ps : List RoutePointSchema) (i : Nat)
    (h : ∀ p ∈ ps, p.name.getD "" ≠ "") :
    InfixEmbed (ps.map fun p => p.name.getD "") (pointBlocks i ps) := by
  induction ps generalizing i with
  | nil => exact .nil _
  | cons p ps ih =>
    rw [List.map_cons, pointBlocks]
    refine .keep ?_ (ih (i + 1) fun q hq => h q (List.mem_cons_of_mem _ hq))
    have hname : p.name.getD "" = p.name.getD "Без названия" := by
      cases hn : p.name with
      | none =>
        have hp := h p (List.mem_cons_self _ _)
        rw [hn] at hp
        exact absurd rfl hp
      | some n => rfl
    rw [hname]
    exact pointBlock_contains_name i p

theorem InfixEmbed.prepend_blocks {ns bs : List String} (pre : List String)
    (h : InfixEmbed ns bs) : InfixEmbed ns (pre ++ bs) := by
  induction pre with
  | nil => exact h
  | cons b pre ih => exact .skip b ih

/-! ### Claims about the renderer -/

/-- C1: for every well-formed RouteSchema value (non-empty title, every
route point named, non-empty summary), the
normalize-then-parse-then-render pipeline — with `json.loads` the
external decoder `loads` — produces a message containing the title, all
point names in input order, and the summary verbatim as substrings. -/
theorem claim_C1 (loads : String → Option Json) (r : RouteSchema) (text : String) (j : Json)
    (hwf : r.wellFormed = true) (hload : loads (normalize text) = some j) (hj : j = r.toJson) :
    occursInOrder
      (r.title.getD "" :: (r.route_points.map fun p => p.name.getD "") ++ [r.summary.getD ""])
      (format_route_from_json j) := by
  subst hj
  rw [format_route_from_json_toJson, renderedOf]
  rw [RouteSchema.wellFormed] at hwf
  simp only [Bool.and_eq_true, bne_iff_ne, ne_eq, List.all_eq_true] at hwf
  obtain ⟨⟨h1, h2⟩, h3⟩ := hwf
  have hfilters :
      ((titleBlockOf r ::
        (pointBlocks 1 r.route_points ++ timelineBlocksOf r ++ [r.summary.getD ""])).filter
        fun s => !s.data.isEmpty) =
      titleBlockOf r ::
        (pointBlocks 1 r.route_points ++
          ((timelineBlocksOf r).filter fun s => !s.data.isEmpty) ++ [r.summary.getD ""]) := by
    simp [List.filter_cons, List.filter_append, titleBlockOf_isEmpty_false,
      pointBlocks_filter, str_data_isEmpty_false h3]
  rw [hfilters]
  apply occursInOrder_strJoin
  refine .keep ?_ ?_
  · refine ⟨"*", "*" ++ "\n" ++ ("*Начало маршрута:* " ++ r.start_location.getD "Не указано"), ?_⟩
    have h : titleBlockOf r =
        ("*" ++ r.title.getD "Ваш пешеходный маршрут" ++ "*") ++ "\n" ++
          ("*Начало маршрута:* " ++ r.start_location.getD "Не указано") := rfl
    have htitle : r.title.getD "Ваш пешеходный маршрут" = r.title.getD "" := by
      cases ht : r.title with
      | none =>
        rw [ht] at h1
        exact absurd rfl h1
      | some t => rfl
    rw [h, htitle]
    simp [strAppend_assoc]
  · have e1 := infixEmbed_names r.route_points 1 h2
    have e2 : InfixEmbed [r.summary.getD ""]
        (((timelineBlocksOf r).filter fun s => !s.data.isEmpty) ++ [r.summary.getD ""]) :=
      InfixEmbed.prepend_blocks _ (.keep (containsStr_refl _) (.nil _))
    have e := e1.append e2
    rwa [← List.append_assoc] at e

/-- A concrete well-formed route used to witness C1. -/
def rC1 : RouteSchema :=
  { title := some "Исторический маршрут", start_location := none
    route_points := [{ name := some "Кремль", reason := none, travel_info := none,
                       visit_duration := none }]
    timeline := [], summary := some "Отличная прогулка" }

/-- Witness for C1 at a concrete schema value and decoder. -/
theorem claim_C1_witness :
    RouteSchema.wellFormed rC1 = true ∧
    occursInOrder ["Исторический маршрут", "Кремль", "Отличная прогулка"]
      (format_route_from_json rC1.toJson) := by
  refine ⟨by decide, ?_⟩
  exact claim_C1 (fun _ => some rC1.toJson) rC1 "" rC1.toJson (by decide) rfl rfl

set_option maxRecDepth 10000 in
/-- C8 counterexample: in a route whose only point lacks every field, the
reason renders as the empty emphasised line between "1. Без названия" and
the travel line — the message contains the bare line "__" with no
placeholder text between the emphasis markers. -/
theorem claim_C8_counterexample :
    format_route_from_json (Json.obj [("route_points", Json.arr [Json.obj []])]) =
      "*Ваш пешеходный маршрут*\n*Начало маршрута:* Не указано\n\n" ++
        "*1. Без названия*\n__\n*Время в пути:* Не указано\n*Время посещения:* Не указано" ∧
    containsStr
      (format_route_from_json (Json.obj [("route_points", Json.arr [Json.obj []])]))
      "\n__\n" := by
  constructor
  · decide
  · decide

/-- An all-fields-missing route point. -/
def emptyPoint : RoutePointSchema := ⟨none, none, none, none⟩

/-- A schema value with every optional field missing and `n` empty points. -/
def missingFieldsRoute (n : Nat) : RouteSchema :=
  { title := none, start_location := none, route_points := List.replicate n emptyPoint
    timeline := [], summary := none }

/-- C8 amended: missing title, start_location, name, travel_info and
visit_duration render as the placeholders of the source, and the blocks
are joined with blank lines; a missing reason, however, renders as the
empty emphasised line "__" rather than as a placeholder, and a missing
summary and empty timeline/point lists contribute no block at all. -/
theorem claim_C8_amended (n : Nat) :
    format_route_from_json (missingFieldsRoute n).toJson =
      strJoin "\n\n"
        (strJoin "\n" ["*Ваш пешеходный маршрут*", "*Начало маршрута:* Не указано"] ::
          pointBlocks 1 (List.replicate n emptyPoint)) ∧
    ∀ i, pointBlock i emptyPoint =
      strJoin "\n" ["*" ++ toString i ++ ". Без названия*", "__",
        "*Время в пути:* Не указано", "*Время посещения:* Не указано"] := by
  constructor
  · rw [format_route_from_json_toJson, renderedOf]
    have hfilters :
        ((titleBlockOf (missingFieldsRoute n) ::
          (pointBlocks 1 (missingFieldsRoute n).route_points ++
            timelineBlocksOf (missingFieldsRoute n) ++
            [(missingFieldsRoute n).summary.getD ""])).filter fun s => !s.data.isEmpty) =
        titleBlockOf (missingFieldsRoute n) ::
          pointBlocks 1 (List.replicate n emptyPoint) := by
      have ht : timelineBlocksOf (missingFieldsRoute n) = [] := rfl
      have hs : (missingFieldsRoute n).summary.getD "" = "" := rfl
      have hp : (missingFieldsRoute n).route_points = List.replicate n emptyPoint := rfl
      rw [ht, hs, hp]
      simp [List.filter_cons, List.filter_append, titleBlockOf_isEmpty_false,
        pointBlocks_filter]
    rw [hfilters]
    have htitle : titleBlockOf (missingFieldsRoute n) =
        strJoin "\n" ["*Ваш пешеходный маршрут*", "*Начало маршрута:* Не указано"] := rfl
    rw [htitle]
  · intro i
    have h : pointBlock i emptyPoint =
        ("*" ++ toString i ++ ". " ++ "Без названия" ++ "*") ++ "\n" ++
          (("_" ++ "" ++ "_") ++ "\n" ++
            (("*Время в пути:* " ++ "Не указано") ++ "\n" ++
              ("*Время посещения:* " ++ "Не указано"))) := rfl
    have h2 : strJoin "\n" ["*" ++ toString i ++ ". Без названия*", "__",
        "*Время в пути:* Не указано", "*Время посещения:* Не указано"] =
        ("*" ++ toString i ++ ". Без названия*") ++ "\n" ++
          ("__" ++ "\n" ++
            ("*Время в пути:* Не указано" ++ "\n" ++ "*Время посещения:* Не указано")) := rfl
    have ha : "*" ++ toString i ++ ". " ++ "Без названия" ++ "*" =
        "*" ++ toString i ++ ". Без названия*" := by
      have hc : ". " ++ ("Без названия" ++ "*") = ". Без названия*" := by decide
      simp only [strAppend_assoc]
      rw [hc]
    have hrest : ("_" ++ "" ++ "_") ++ "\n" ++
        (("*Время в пути:* " ++ "Не указано") ++ "\n" ++
          ("*Время посещения:* " ++ "Не указано")) =
        "__" ++ "\n" ++
          ("*Время в пути:* Не указано" ++ "\n" ++ "*Время посещения:* Не указано") := by decide
    rw [h, h2, ha, hrest]

/-- C9: the renderer is total — for every input value it either returns
the assembled message of the `try` body, or, when the body raises, the
fixed apology string; no fault escapes to the caller. -/
theorem claim_C9 (route_data : Json) :
    (∃ s, formatRouteBody route_data = .ok s ∧ format_route_from_json route_data = s) ∨
    ((∃ e, formatRouteBody route_data = .error e) ∧
      format_route_from_json route_data = "Произошла ошибка при обработке маршрута.") := by
  cases h : formatRouteBody route_data with
  | ok s =>
    exact Or.inl ⟨s, rfl, by unfold format_route_from_json; rw [h]⟩
  | error e =>
    exact Or.inr ⟨⟨e, rfl⟩, by unfold format_route_from_json; rw [h]⟩

/-! ### Claims about the dialogue collector and the completion client -/

/-- C2: every run of the final location handler ends with the session
cleared: whatever the completion call and the JSON decoding produce, the
resulting conversation state is Idle and the accumulated form data is
discarded — no outcome leaves the session in a non-Idle state. -/
theorem claim_C2 (loads : String → Option Json) (get_gpt : String → Option String)
    (form : Form) (text : Option String) (location : Option GeoPoint) :
    (process_location_and_generate loads get_gpt form text location).state = ConvState.Idle ∧
    (process_location_and_generate loads get_gpt form text location).form = emptyForm := by
  constructor
  · simp only [process_location_and_generate]
    repeat' split
    all_goals rfl
  · simp only [process_location_and_generate]
    repeat' split
    all_goals rfl

/-- C3: the synchronous completion call returns the value at the body
path `result.alternatives[0].message.text` exactly when the HTTP status
is 200 and that path decodes and resolves; any non-200 status, timeout or
transport exception yields None — the embedding is a total function, so
nothing is ever raised to the caller. -/
theorem claim_C3 (status : Nat) (body : Except PyErr Json) :
    (status = 200 → get_gpt_route_async (.response status body) =
      (body >>= extractResultText).toOption) ∧
    (status ≠ 200 → get_gpt_route_async (.response status body) = none) ∧
    get_gpt_route_async .timeoutError = none ∧
    get_gpt_route_async .exn = none := by
  refine ⟨?_, ?_, rfl, rfl⟩
  · intro h
    subst h
    simp only [get_gpt_route_async]
    rw [if_pos trivial]
    cases body with
    | ok d =>
      cases hext : extractResultText d <;>
        simp [hext, Except.toOption, exceptBind_ok]
    | error e => rfl
  · intro h
    simp only [get_gpt_route_async]
    rw [if_neg h]

/-- A body of the shape the completion service answers with. -/
def sampleBody : Json :=
  .obj [("result", .obj [("alternatives",
    .arr [.obj [("message", .obj [("text", .str "Вот маршрут")])]])])]

/-- Witness for C3: a 200 response with the expected path yields the text,
a 500 response yields None. -/
theorem claim_C3_witness :
    get_gpt_route_async (.response 200 (.ok sampleBody)) = some (.str "Вот маршрут") ∧
    get_gpt_route_async (.response 500 (.ok (.obj []))) = none := by
  constructor
  · have h := (claim_C3 200 (.ok sampleBody)).1 rfl
    rw [h]
    rfl
  · exact (claim_C3 500 (.ok (.obj []))).2.1 (by decide)

theorem prompt_contains_time (ud : UserData) : containsStr (construct_prompt ud) ud.time := by
  simp only [construct_prompt]
  repeat
    first
    | exact containsStr_of_right _ (containsStr_refl _)
    | apply containsStr_of_left

theorem prompt_contains_location (ud : UserData) :
    containsStr (construct_prompt ud) ud.location := by
  simp only [construct_prompt]
  repeat
    first
    | exact containsStr_of_right _ (containsStr_refl _)
    | apply containsStr_of_left

theorem prompt_contains_objects (ud : UserData) :
    containsStr (construct_prompt ud) (objectsText ud.selected_objects) := by
  simp only [construct_prompt]
  repeat
    first
    | exact containsStr_of_right _ (containsStr_refl _)
    | apply containsStr_of_left

theorem prompt_contains_instruction (ud : UserData) :
    containsStr (construct_prompt ud)
      "СПИСОК ДОСТОПРИМЕЧАТЕЛЬНОСТЕЙ ДЛЯ МАРШРУТА (используй ТОЛЬКО их):" := by
  simp only [construct_prompt]
  repeat
    first
    | exact containsStr_of_right _ ⟨"", "\n    ", by decide⟩
    | apply containsStr_of_left

theorem objectsText_cons_head (o : PlaceObj) (rest : List PlaceObj) {X : String}
    (h : containsStr ("- " ++ o.title ++ " (адрес: " ++ o.address ++ ")") X) :
    containsStr (objectsText (o :: rest)) X := by
  cases rest with
  | nil => exact h
  | cons o2 r2 =>
    have he : objectsText (o :: o2 :: r2) =
        ("- " ++ o.title ++ " (адрес: " ++ o.address ++ ")") ++ "\n" ++
          objectsText (o2 :: r2) := rfl
    rw [he]
    exact containsStr_of_left _ (containsStr_of_left _ h)

theorem objectsText_cons_tail (o : PlaceObj) {rest : List PlaceObj} {X : String}
    (h : containsStr (objectsText rest) X) (hne : rest ≠ []) :
    containsStr (objectsText (o :: rest)) X := by
  cases rest with
  | nil => exact absurd rfl hne
  | cons o2 r2 =>
    have he : objectsText (o :: o2 :: r2) =
        ("- " ++ o.title ++ " (адрес: " ++ o.address ++ ")") ++ "\n" ++
          objectsText (o2 :: r2) := rfl
    rw [he]
    exact containsStr_of_right _ h

theorem objectsText_contains {l : List PlaceObj} {obj : PlaceObj} (h : obj ∈ l) :
    containsStr (objectsText l) obj.title ∧ containsStr (objectsText l) obj.address := by
  induction l with
  | nil => cases h
  | cons o rest ih =>
    rcases List.mem_cons.mp h with rfl | hmem
    · constructor
      · exact objectsText_cons_head obj rest
          ⟨"- ", " (адрес: " ++ obj.address ++ ")", by simp [strAppend_assoc]⟩
      · exact objectsText_cons_head obj rest
          ⟨"- " ++ obj.title ++ " (адрес: ", ")", by simp [strAppend_assoc]⟩
    · have hne : rest ≠ [] := by
        rintro rfl
        cases hmem
      exact ⟨objectsText_cons_tail o (ih hmem).1 hne, objectsText_cons_tail o (ih hmem).2 hne⟩

/-- The concrete form for the C4 counterexample: interests "Q" never
reach the route prompt. -/
def udC4 : UserData :=
  { interests := "Q", selected_objects := [{ title := "Кремль", address := "пл. Минина, 1" }]
    time := "2", location := "центр" }

set_option maxRecDepth 40000 in
/-- C4 counterexample: the route prompt does not embed the tourist's
stated interests — for this concrete form the prompt built from it does
not contain the interests string at all. -/
theorem claim_C4_counterexample : ¬ containsStr (construct_prompt udC4) udC4.interests := by
  intro h
  have hm := @containsStr_mem (construct_prompt udC4) udC4.interests h 'Q' (by decide)
  revert hm
  decide

/-- C4 amended: the route prompt is a pure total function of the form; it
embeds the numeric duration and the location verbatim, mentions every
selected candidate's title and address, and carries the
use-only-these-candidates instruction — but it does not embed the
interests (see the counterexample). -/
theorem claim_C4_amended (ud : UserData) :
    containsStr (construct_prompt ud) ud.time ∧
    containsStr (construct_prompt ud) ud.location ∧
    (∀ obj ∈ ud.selected_objects,
      containsStr (construct_prompt ud) obj.title ∧
      containsStr (construct_prompt ud) obj.address) ∧
    containsStr (construct_prompt ud)
      "СПИСОК ДОСТОПРИМЕЧАТЕЛЬНОСТЕЙ ДЛЯ МАРШРУТА (используй ТОЛЬКО их):" := by
  refine ⟨prompt_contains_time ud, prompt_contains_location ud, ?_,
    prompt_contains_instruction ud⟩
  intro obj hobj
  have h := objectsText_contains hobj
  exact ⟨containsStr_trans (prompt_contains_objects ud) h.1,
    containsStr_trans (prompt_contains_objects ud) h.2⟩

/-- Witness for C4 amended at the concrete form of the counterexample. -/
theorem claim_C4_amended_witness :
    containsStr (construct_prompt udC4) "2" ∧
    containsStr (construct_prompt udC4) "Кремль" ∧
    containsStr (construct_prompt udC4) "пл. Минина, 1" := by
  obtain ⟨ht, hl, hobjs, hinstr⟩ := claim_C4_amended udC4
  have hobj := hobjs { title := "Кремль", address := "пл. Минина, 1" } (by decide)
  exact ⟨ht, hobj.1, hobj.2⟩

/-- C5 counterexample: `normalize` is not idempotent — stripping the
surrounding whitespace can expose a fence that only a second pass would
remove: one pass sends " ```a" to "```a", a second pass to "a". -/
theorem claim_C5_counterexample : normalize (normalize " ```a") ≠ normalize " ```a" := by
  decide

/-- C5 amended: `normalize` is idempotent on every input whose normalized
form does not itself begin or end with a triple-backtick fence. -/
theorem claim_C5_amended (s : String)
    (h1 : pyStartsWith (normalize s) "```" = false)
    (h2 : pyEndsWith (normalize s) "```" = false) :
    normalize (normalize s) = normalize s := by
  obtain ⟨x, hx⟩ := normalize_eq_strip s
  rw [normalize_no_fence _ h1 h2, hx, pyStrip_idem]

/-- Witness for C5 amended at a fence-free input. -/
theorem claim_C5_amended_witness :
    pyStartsWith (normalize "маршрут") "```" = false ∧
    pyEndsWith (normalize "маршрут") "```" = false ∧
    normalize (normalize "маршрут") = normalize "маршрут" :=
  ⟨by decide, by decide, claim_C5_amended "маршрут" (by decide) (by decide)⟩

/-- Decimal value of a digit string; states the positivity part of C6. -/
def pyInt (s : String) : Nat :=
  s.data.foldl (fun acc c => acc * 10 + (c.toNat - Char.toNat '0')) 0

/-- C6 counterexample: the input "0" is all-digits, so the handler accepts
it, stores the raw string "0" and advances — but 0 is not a positive
number of hours, so the time field is not the positive integer the claim
requires. -/
theorem claim_C6_counterexample :
    pyIsDigit "0" = true ∧
    (process_time emptyForm "0").state = ConvState.AwaitingLocation ∧
    (process_time emptyForm "0").form.time = some "0" ∧
    ¬ 0 < pyInt "0" := by
  decide

/-- C6 amended: a non-digit text keeps the state at AwaitingTime, leaves
the form unchanged and emits the re-prompt; an all-digits text (zero
included) is stored as the raw digit string and the state advances to
AwaitingLocation. -/
theorem claim_C6_amended (form : Form) (text : String) :
    (pyIsDigit text = false →
      process_time form text =
        { state := .AwaitingTime, form := form,
          replies := ["Пожалуйста, введи количество часов цифрой (например, 3)."] }) ∧
    (pyIsDigit text = true →
      process_time form text =
        { state := .AwaitingLocation, form := { form with time := some text },
          replies := ["Принято. Теперь отправь свою геолокацию📍 или напиши адрес, откуда начнем."] }) := by
  constructor
  · intro h
    simp [process_time, h]
  · intro h
    simp [process_time, h]

/-- Witness for C6 amended: "3h" is rejected in place, "4" advances. -/
theorem claim_C6_amended_witness :
    process_time emptyForm "3h" =
      { state := .AwaitingTime, form := emptyForm,
        replies := ["Пожалуйста, введи количество часов цифрой (например, 3)."] } ∧
    process_time emptyForm "4" =
      { state := .AwaitingLocation, form := { emptyForm with time := some "4" },
        replies := ["Принято. Теперь отправь свою геолокацию📍 или напиши адрес, откуда начнем."] } :=
  ⟨(claim_C6_amended emptyForm "3h").1 (by decide),
   (claim_C6_amended emptyForm "4").2 (by decide)⟩

/-- C7: on a matched non-empty category list `l`, the handler selects
exactly `min |l| 4` entries drawn from `l` without replacement (a
sub-permutation of `l`, hence pairwise distinct whenever `l` is), stores
them and advances to AwaitingTime; on an unknown or empty category it
re-prompts and stays in AwaitingInterests. -/
theorem claim_C7 (cd : String → Option (List PlaceObj)) (seed : Nat) (form : Form)
    (text : String) (category : Option String) (l : List PlaceObj) :
    (cd (categoryKey category) = some l → l ≠ [] →
      ∃ sel,
        process_interests cd seed form text category =
          { state := .AwaitingTime,
            form := { form with interests := some text, selected_objects := some sel },
            replies := ["Отлично, я подобрал для вас несколько мест по вашим интересам!\n\n" ++
              "Сколько у вас свободного времени⏳ на прогулку (в часах)?"] } ∧
        sel.length = min l.length 4 ∧ List.Subperm sel l ∧ (l.Nodup → sel.Nodup)) ∧
    ((cd (categoryKey category) = none ∨ cd (categoryKey category) = some []) →
      process_interests cd seed form text category =
        { state := .AwaitingInterests, form := { form with interests := some text },
          replies := [noPlacesReply] }) := by
  constructor
  · intro hcd hne
    have hem : l.isEmpty = false := by
      cases l with
      | nil => exact absurd rfl hne
      | cons a as => rfl
    have hlen : (pySample seed (min l.length 4) l).length = min l.length 4 := by
      rw [pySample_length]
      omega
    refine ⟨pySample seed (min l.length 4) l, ?_, hlen, pySample_subperm _ _ _,
      fun hnd => subpermNodup (pySample_subperm _ _ _) hnd⟩
    simp only [process_interests, hcd, hem, Bool.false_eq_true, if_false]
  · intro hcase
    rcases hcase with hnone | hempty
    · simp only [process_interests, hnone]
    · simp [process_interests, hempty]

/-- The two-element category list used to witness C7. -/
def parkList : List PlaceObj :=
  [{ title := "Парк Швейцария", address := "пр. Гагарина" },
   { title := "Александровский сад", address := "Верхне-Волжская наб." }]

/-- The category index used to witness C7: key "2" only. -/
def cdC7 : String → Option (List PlaceObj) := fun k =>
  if k = "2" then some parkList else none

/-- Witness for C7: category "2" matches the two-element list and the
handler advances; category "7" is unknown and the handler re-prompts. -/
theorem claim_C7_witness :
    (∃ sel,
      process_interests cdC7 0 emptyForm "парки" (some "2") =
        { state := .AwaitingTime,
          form := { emptyForm with interests := some "парки", selected_objects := some sel },
          replies := ["Отлично, я подобрал для вас несколько мест по вашим интересам!\n\n" ++
            "Сколько у вас свободного времени⏳ на прогулку (в часах)?"] } ∧
      sel.length = min parkList.length 4 ∧ List.Subperm sel parkList ∧
      (parkList.Nodup → sel.Nodup)) ∧
    process_interests cdC7 0 emptyForm "театры" (some "7") =
      { state := .AwaitingInterests, form := { emptyForm with interests := some "театры" },
        replies := [noPlacesReply] } := by
  constructor
  · exact (claim_C7 cdC7 0 emptyForm "парки" (some "2") parkList).1 (by decide) (by decide)
  · exact (claim_C7 cdC7 0 emptyForm "театры" (some "7") parkList).2 (Or.inl (by decide))

/-- C10: a failed classification call (None) is handled identically to an
unknown category: the same single "no suitable places" re-prompt, the
state stays AwaitingInterests, and neither a distinct remote-error
apology nor a session reset occurs. -/
theorem claim_C10 (cd : String → Option (List PlaceObj)) (seed : Nat) (form : Form)
    (text : String) (c : String)
    (hfail : cd "" = none) (hunk : cd (categoryKey (some c)) = none) :
    process_interests cd seed form text none = process_interests cd seed form text (some c) ∧
    process_interests cd seed form text none =
      { state := .AwaitingInterests, form := { form with interests := some text },
        replies := [noPlacesReply] } := by
  have hfail' : cd (categoryKey none) = none := hfail
  have h1 : process_interests cd seed form text none =
      { state := .AwaitingInterests, form := { form with interests := some text },
        replies := [noPlacesReply] } := by
    simp only [process_interests, hfail']
  have h2 : process_interests cd seed form text (some c) =
      { state := .AwaitingInterests, form := { form with interests := some text },
        replies := [noPlacesReply] } := by
    simp only [process_interests, hunk]
  exact ⟨h1.trans h2.symm, h1⟩

/-- Witness for C10 with an index that matches nothing. -/
theorem claim_C10_witness :
    process_interests (fun _ => none) 0 emptyForm "космос" none =
      { state := .AwaitingInterests, form := { emptyForm with interests := some "космос" },
        replies := [noPlacesReply] } :=
  (claim_C10 (fun _ => none) 0 emptyForm "космос" "нечто" rfl rfl).2

/-- Witness for C2: a concrete failed-completion run ends Idle and empty. -/
theorem claim_C2_witness :
    (process_location_and_generate (fun _ => none) (fun _ => none) emptyForm
      (some "центр") none).state = ConvState.Idle ∧
    (process_location_and_generate (fun _ => none) (fun _ => none) emptyForm
      (some "центр") none).form = emptyForm :=
  claim_C2 (fun _ => none) (fun _ => none) emptyForm (some "центр") none

/-- Witness for C8 amended at one empty point. -/
theorem claim_C8_amended_witness :
    format_route_from_json (missingFieldsRoute 1).toJson =
      strJoin "\n\n"
        (strJoin "\n" ["*Ваш пешеходный маршрут*", "*Начало маршрута:* Не указано"] ::
          pointBlocks 1 (List.replicate 1 emptyPoint)) :=
  (claim_C8_amended 1).1

/-- Witness for C9 at the empty object. -/
theorem claim_C9_witness :
    (∃ s, formatRouteBody (Json.obj []) = .ok s ∧ format_route_from_json (Json.obj []) = s) ∨
    ((∃ e, formatRouteBody (Json.obj []) = .error e) ∧
      format_route_from_json (Json.obj []) = "Произошла ошибка при обработке маршрута.") :=
  claim_C9 (Json.obj [])

end GorkyGuide
